import Mathlib

/-!
Verification of the directory-size aggregation routine
(`compute_directory_sizes` and its two backends) of
`src/anemoi/datasets/create/size.py`.

The external world is modelled explicitly:
* `FileSystem` packages `os.path.isdir`, `os.walk` and `os.path.getsize`;
* `S3State` packages the paginated `list_objects_v2` listing, a page being
  the list of the byte sizes of the objects it reports (an absent
  `Contents` key is the empty page);
* exceptions escaping the routine (the `ValueError` raised by unpacking a
  one-element `split`) appear as the `Except.error` branch.
-/

/-- The result dictionary `dict(total_size=..., total_number_of_files=...)`. -/
structure SizeReport where
  total_size : Nat
  total_number_of_files : Nat
deriving DecidableEq, Repr

/-- The local-filesystem facts consulted by the code: `os.path.isdir`,
`os.walk` (yielding `(dirpath, dirnames, filenames)` triples) and
`os.path.getsize`. -/
structure FileSystem where
  isdir : String → Bool
  walk : String → List (String × List String × List String)
  getsize : String → Nat

/-- The object-store listing consulted by the code: for a bucket and a key
prefix, the pages returned by the `list_objects_v2` paginator, each page
being the byte sizes of its `Contents` entries. -/
structure S3State where
  pages : List Char → List Char → List (List Nat)

/-- `os.path.join(dirpath, filename)` as used on the walk's results. -/
def joinPath (dirpath filename : String) : String :=
  dirpath ++ "/" ++ filename

/-- The `tqdm.tqdm(iterable=...)` progress wrapper: it yields the items of
its iterable unchanged. -/
def tqdmIter {α : Type} (xs : List α) : List α := xs

/-- `compute_directory_sizes_local`: `None` when the path is not a
directory, otherwise the `(size, n)` accumulation over every filename of
every `os.walk` triple. -/
def compute_directory_sizes_local (fs : FileSystem) (path : String) : Option SizeReport :=
  if !fs.isdir path then none
  else
    let bar := tqdmIter (fs.walk path)
    let acc := bar.foldl
      (fun acc t =>
        t.2.2.foldl (fun a filename => (a.1 + fs.getsize (joinPath t.1 filename), a.2 + 1)) acc)
      (0, 0)
    some { total_size := acc.1, total_number_of_files := acc.2 }

/-- `path.replace("s3://", "")`: remove every non-overlapping occurrence of
the substring `s3://`, scanning left to right. -/
def replaceS3 : List Char → List Char
  | 's' :: '3' :: ':' :: '/' :: '/' :: rest => replaceS3 rest
  | c :: rest => c :: replaceS3 rest
  | [] => []

/-- `s.split("/", 1)`: `none` when the string holds no `/` (the two-variable
unpacking then raises `ValueError`), otherwise the parts before and after
the first `/`. -/
def splitFirstSlash : List Char → Option (List Char × List Char)
  | [] => none
  | c :: rest =>
    if c = '/' then some ([], rest)
    else (splitFirstSlash rest).map (fun p => (c :: p.1, p.2))

/-- The parse performed by line 92 of the source:
`path.replace("s3://", "").split("/", 1)` unpacked into
`(bucket_name, prefix)`. -/
def s3Parse (path : String) : Option (List Char × List Char) :=
  splitFirstSlash (replaceS3 path.toList)

/-- The message of the `ValueError` raised when the `split` yields a single
element. -/
def valueErrorMsg : String :=
  "ValueError: not enough values to unpack (expected 2, got 1)"

/-- The `(size, n)` accumulation of `compute_directory_sizes_s3` over the
listing's pages. -/
def s3Aggregate (pages : List (List Nat)) : SizeReport :=
  let acc := pages.foldl
    (fun acc contents => contents.foldl (fun a sz => (a.1 + sz, a.2 + 1)) acc)
    (0, 0)
  { total_size := acc.1, total_number_of_files := acc.2 }

/-- `compute_directory_sizes_s3`: parse the location, then sum size and
count over every object of every page. A failed parse is the `ValueError`
escaping before the paginator is consulted. -/
def compute_directory_sizes_s3 (s3 : S3State) (path : String) : Except String SizeReport :=
  match s3Parse path with
  | none => .error valueErrorMsg
  | some (bucket_name, keyPre) => .ok (s3Aggregate (s3.pages bucket_name keyPre))

/-- `path.startswith("s3://")`. -/
def startsWithS3 (path : String) : Bool :=
  match path.toList with
  | 's' :: '3' :: ':' :: '/' :: '/' :: _ => true
  | _ => false

/-- `compute_directory_sizes`: dispatch on the `s3://` scheme, then return
the selected backend's result (an uncaught exception propagates). -/
def compute_directory_sizes (fs : FileSystem) (s3 : S3State) (path : String) :
    Except String (Option SizeReport) :=
  if startsWithS3 path then Except.map some (compute_directory_sizes_s3 s3 path)
  else .ok (compute_directory_sizes_local fs path)

/-- `compute_directory_sizes` together with the log lines it emits.
`fmt` models `bytes_to_human` (an external pure formatter, modelled from
the spec: integer bytes to display string). A `None` result logs the
warning; a successful result logs the two info lines; an escaping
exception logs nothing. -/
def compute_directory_sizes_logged (fmt : Nat → String) (fs : FileSystem) (s3 : S3State)
    (path : String) : Except String (Option SizeReport) × List String :=
  match (if startsWithS3 path then Except.map some (compute_directory_sizes_s3 s3 path)
         else .ok (compute_directory_sizes_local fs path)) with
  | .error e => (.error e, [])
  | .ok none => (.ok none, ["Could not compute size of " ++ path])
  | .ok (some results) =>
      (.ok (some results),
        ["Total size: " ++ fmt results.total_size,
         "Total number of files: " ++ toString results.total_number_of_files])

/-- The full paths of the regular files enumerated by a walk's triples. -/
def filesOfWalk : List (String × List String × List String) → List String
  | [] => []
  | t :: ws => t.2.2.map (joinPath t.1) ++ filesOfWalk ws

/-- The full paths of every regular file the local traversal enumerates
under `path`. -/
def localFiles (fs : FileSystem) (path : String) : List String :=
  filesOfWalk (fs.walk path)

/-- Modelled from the spec: the parse the specification describes for a
remote location — strip only the leading `s3://` (the first five
characters) and split the remainder on its first `/`. Stated for
comparison with the code's `s3Parse`. -/
def specStripLeadingParse (path : String) : Option (List Char × List Char) :=
  splitFirstSlash (path.toList.drop 5)

/-- Whether the substring `s3://` occurs anywhere in the character list. -/
def hasS3 : List Char → Bool
  | 's' :: '3' :: ':' :: '/' :: '/' :: _ => true
  | _ :: rest => hasS3 rest
  | [] => false

/-! ### Concrete instances used by the witnesses -/

/-- A filesystem with no directories and no files. -/
def fsEmpty : FileSystem :=
  { isdir := fun _ => false, walk := fun _ => [], getsize := fun _ => 0 }

/-- An object store whose every listing is empty. -/
def s3Empty : S3State := { pages := fun _ _ => [] }

/-- A filesystem holding directory `d` with files `a` (10 bytes) and `b`
(20 bytes) and a subdirectory `d/sub` with file `c` (5 bytes). -/
def fsDemo : FileSystem :=
  { isdir := fun p => p = "d"
    walk := fun p => if p = "d" then [("d", ["sub"], ["a", "b"]), ("d/sub", [], ["c"])] else []
    getsize := fun p =>
      if p = "d/a" then 10 else if p = "d/b" then 20 else if p = "d/sub/c" then 5 else 0 }

/-- A filesystem holding one existing directory `d` that contains only an
empty subdirectory and no files. -/
def fsEmptyDir : FileSystem :=
  { isdir := fun p => p = "d" || p = "d/sub"
    walk := fun p => if p = "d" then [("d", ["sub"], []), ("d/sub", [], [])] else []
    getsize := fun _ => 0 }

/-- An object store listing a fixed prefix in two pages, sizes 100 and 200
on the first page and 50 on the second. -/
def s3TwoPages : S3State := { pages := fun _ _ => [[100, 200], [50]] }

/-- The same listing delivered as a single concatenated page. -/
def s3OnePage : S3State := { pages := fun _ _ => [[100, 200, 50]] }

/-! ### Helper lemmas -/

theorem inner_foldl_eq (g : String → Nat) (d : String) (fns : List String) (a : Nat × Nat) :
    fns.foldl (fun a fn => (a.1 + g (joinPath d fn), a.2 + 1)) a
      = (a.1 + (fns.map (fun fn => g (joinPath d fn))).sum, a.2 + fns.length) := by
  induction fns generalizing a with
  | nil => simp
  | cons f t ih =>
    simp only [List.foldl_cons, List.map_cons, List.sum_cons, List.length_cons, ih,
      Prod.mk.injEq]
    omega

theorem walk_foldl_eq (g : String → Nat) (ws : List (String × List String × List String))
    (a : Nat × Nat) :
    ws.foldl (fun acc t => t.2.2.foldl (fun a fn => (a.1 + g (joinPath t.1 fn), a.2 + 1)) acc) a
      = (a.1 + ((filesOfWalk ws).map g).sum, a.2 + (filesOfWalk ws).length) := by
  induction ws generalizing a with
  | nil => simp [filesOfWalk]
  | cons t ws ih =>
    rw [List.foldl_cons, inner_foldl_eq, ih, filesOfWalk]
    simp only [List.map_append, List.sum_append, List.length_append, List.map_map,
      Function.comp_def, List.length_map, Prod.mk.injEq]
    omega

theorem compute_local_eq (fs : FileSystem) (path : String) :
    compute_directory_sizes_local fs path =
      if fs.isdir path then
        some { total_size := ((localFiles fs path).map fs.getsize).sum,
               total_number_of_files := (localFiles fs path).length }
      else none := by
  unfold compute_directory_sizes_local tqdmIter localFiles
  cases hb : fs.isdir path with
  | false => simp [hb]
  | true => simp [hb, walk_foldl_eq]

theorem page_foldl_eq (contents : List Nat) (a : Nat × Nat) :
    contents.foldl (fun a sz => (a.1 + sz, a.2 + 1)) a
      = (a.1 + contents.sum, a.2 + contents.length) := by
  induction contents generalizing a with
  | nil => simp
  | cons x t ih =>
    simp only [List.foldl_cons, List.sum_cons, List.length_cons, ih, Prod.mk.injEq]
    omega

theorem pages_foldl_eq (pages : List (List Nat)) (a : Nat × Nat) :
    pages.foldl (fun acc contents => contents.foldl (fun a sz => (a.1 + sz, a.2 + 1)) acc) a
      = (a.1 + pages.flatten.sum, a.2 + pages.flatten.length) := by
  induction pages generalizing a with
  | nil => simp
  | cons pg t ih =>
    rw [List.foldl_cons, page_foldl_eq, ih, List.flatten_cons]
    simp only [List.sum_append, List.length_append, Prod.mk.injEq]
    omega

theorem s3Aggregate_eq (pages : List (List Nat)) :
    s3Aggregate pages
      = { total_size := pages.flatten.sum, total_number_of_files := pages.flatten.length } := by
  unfold s3Aggregate
  rw [pages_foldl_eq]
  simp only [Nat.zero_add]

theorem hasS3_false_replaceS3 (l : List Char) (h : hasS3 l = false) : replaceS3 l = l := by
  induction l using replaceS3.induct with
  | case1 rest ih => simp [hasS3] at h
  | case2 c rest hne ih =>
    rw [replaceS3]
    · rw [hasS3] at h
      · rw [ih h]
      · exact hne
    · exact hne
  | case3 => rfl

theorem no_slash_hasS3 (l : List Char) (h : '/' ∉ l) : hasS3 l = false := by
  induction l using hasS3.induct with
  | case1 rest => simp at h
  | case2 c rest hne ih =>
    rw [hasS3]
    · exact ih (fun hm => h (List.mem_cons_of_mem c hm))
    · exact hne
  | case3 => rfl

theorem no_slash_splitFirstSlash (l : List Char) (h : '/' ∉ l) :
    splitFirstSlash l = none := by
  induction l with
  | nil => rfl
  | cons c rest ih =>
    have hc : ¬ c = '/' := fun hc => h (hc ▸ List.mem_cons_self c rest)
    have hr : '/' ∉ rest := fun hm => h (List.mem_cons_of_mem c hm)
    simp [splitFirstSlash, hc, ih hr]

theorem startsWithS3_eq (path : String) (h : startsWithS3 path = true) :
    path.toList = 's' :: '3' :: ':' :: '/' :: '/' :: path.toList.drop 5 := by
  unfold startsWithS3 at h
  split at h
  · next rest heq => rw [heq]; rfl
  · exact absurd h (by simp)

theorem startsWithS3_iff_take (path : String) :
    startsWithS3 path = true ↔ path.toList.take 5 = ['s', '3', ':', '/', '/'] := by
  constructor
  · intro h
    rw [startsWithS3_eq path h]
    rfl
  · intro htake
    have hdecomp : path.toList = 's' :: '3' :: ':' :: '/' :: '/' :: path.toList.drop 5 := by
      conv_lhs => rw [← List.take_append_drop 5 path.toList]
      rw [htake]
      rfl
    unfold startsWithS3
    rw [hdecomp]
    rfl

theorem flatten_eq_nil_of_all_nil (pages : List (List Nat)) (h : ∀ pg ∈ pages, pg = []) :
    pages.flatten = [] := by
  induction pages with
  | nil => rfl
  | cons pg t ih =>
    rw [List.flatten_cons, h pg (by simp), ih (fun q hq => h q (List.mem_cons_of_mem pg hq))]
    rfl

theorem filesOfWalk_eq_nil (ws : List (String × List String × List String))
    (h : ∀ t ∈ ws, t.2.2 = ([] : List String)) : filesOfWalk ws = [] := by
  induction ws with
  | nil => rfl
  | cons t rest ih =>
    rw [filesOfWalk, h t (by simp), ih (fun q hq => h q (List.mem_cons_of_mem t hq))]
    rfl

/-! ### Claim theorems -/

/-- Claim C1: for every local directory that exists, the local traversal
returns a report whose `total_size` is the sum of the byte sizes of the
enumerated files and whose `total_number_of_files` is their number; and
the result is unchanged under any reordering of the enumeration — any
filesystem assigning the same sizes whose enumeration is a permutation of
this one produces the same result. -/
theorem C1_local_sum_count (fs : FileSystem) (path : String) (h : fs.isdir path = true) :
    compute_directory_sizes_local fs path
      = some { total_size := ((localFiles fs path).map fs.getsize).sum,
               total_number_of_files := (localFiles fs path).length } ∧
    ∀ fs' : FileSystem, fs'.getsize = fs.getsize → fs'.isdir path = true →
      (localFiles fs' path).Perm (localFiles fs path) →
      compute_directory_sizes_local fs' path = compute_directory_sizes_local fs path := by
  constructor
  · rw [compute_local_eq, if_pos h]
  · intro fs' hg hperm_isdir hperm
    rw [compute_local_eq, compute_local_eq, if_pos hperm_isdir, if_pos h]
    have hsum : ((localFiles fs' path).map fs'.getsize).sum
        = ((localFiles fs path).map fs.getsize).sum := by
      rw [hg]
      exact (hperm.map fs.getsize).sum_eq
    rw [hsum, hperm.length_eq]

/-- Claim C1 witness: the spec's example directory with files of sizes
10, 20 and 5 bytes in two nested directories totals 35 bytes, 3 files. -/
theorem C1_local_sum_count_witness :
    compute_directory_sizes_local fsDemo "d"
      = some { total_size := 35, total_number_of_files := 3 } := by
  rw [(C1_local_sum_count fsDemo "d" (by decide)).1]
  decide

/-- Claim C2: dispatch by scheme — a location whose first five characters
are `s3://` goes to the remote traversal, and every other location goes
to the local traversal. -/
theorem C2_dispatch (fs : FileSystem) (s3 : S3State) (path : String) :
    (path.toList.take 5 = ['s', '3', ':', '/', '/'] →
      compute_directory_sizes fs s3 path
        = Except.map some (compute_directory_sizes_s3 s3 path)) ∧
    (path.toList.take 5 ≠ ['s', '3', ':', '/', '/'] →
      compute_directory_sizes fs s3 path = .ok (compute_directory_sizes_local fs path)) := by
  constructor
  · intro h
    unfold compute_directory_sizes
    rw [if_pos ((startsWithS3_iff_take path).mpr h)]
  · intro h
    unfold compute_directory_sizes
    rw [if_neg (fun hb => h ((startsWithS3_iff_take path).mp hb))]

/-- Claim C2 witness: an `s3://` location is routed to the remote
traversal and a plain path to the local traversal. -/
theorem C2_dispatch_witness :
    compute_directory_sizes fsEmpty s3Empty "s3://b/p"
        = Except.map some (compute_directory_sizes_s3 s3Empty "s3://b/p") ∧
    compute_directory_sizes fsEmpty s3Empty "data/dir"
        = .ok (compute_directory_sizes_local fsEmpty "data/dir") :=
  ⟨(C2_dispatch fsEmpty s3Empty "s3://b/p").1 (by decide),
   (C2_dispatch fsEmpty s3Empty "data/dir").2 (by decide)⟩

/-- Claim C3: a non-`s3://` location that is not an existing directory
yields the absent result, with no partial report. -/
theorem C3_local_absent (fs : FileSystem) (s3 : S3State) (path : String)
    (h1 : startsWithS3 path = false) (h2 : fs.isdir path = false) :
    compute_directory_sizes fs s3 path = .ok none := by
  unfold compute_directory_sizes
  rw [if_neg (by simp [h1]), compute_local_eq, if_neg (by simp [h2])]

/-- Claim C3 witness: a missing local path produces the absent result. -/
theorem C3_local_absent_witness :
    compute_directory_sizes fsEmpty s3Empty "missing" = .ok none :=
  C3_local_absent fsEmpty s3Empty "missing" (by decide) rfl

/-- Claim C4: a well-formed remote location whose listing reports no
objects (every page empty, including the no-pages case) yields the zero
report and never the absent result. -/
theorem C4_empty_remote (fs : FileSystem) (s3 : S3State) (path : String)
    (b keyPre : List Char)
    (h1 : startsWithS3 path = true)
    (h2 : s3Parse path = some (b, keyPre))
    (h3 : ∀ page ∈ s3.pages b keyPre, page = ([] : List Nat)) :
    compute_directory_sizes fs s3 path
      = .ok (some { total_size := 0, total_number_of_files := 0 }) := by
  unfold compute_directory_sizes compute_directory_sizes_s3
  rw [if_pos h1, h2]
  have hz : s3Aggregate (s3.pages b keyPre)
      = { total_size := 0, total_number_of_files := 0 } := by
    rw [s3Aggregate_eq, flatten_eq_nil_of_all_nil _ h3]
    rfl
  simp [hz, Except.map]

/-- Claim C4 witness: an empty listing under `s3://bucket/pre` yields the
zero report. -/
theorem C4_empty_remote_witness :
    compute_directory_sizes fsEmpty s3Empty "s3://bucket/pre"
      = .ok (some { total_size := 0, total_number_of_files := 0 }) :=
  C4_empty_remote fsEmpty s3Empty "s3://bucket/pre" "bucket".toList "pre".toList
    (by decide) (by decide) (fun page hp => absurd hp (List.not_mem_nil page))

/-- Claim C5: an `s3://` location with no `/` in the remainder after the
scheme fails with the `ValueError` of the two-variable unpacking,
whatever the state of the object store — no listing is consulted. -/
theorem C5_malformed (fs : FileSystem) (s3 : S3State) (path : String)
    (h1 : startsWithS3 path = true)
    (h2 : '/' ∉ path.toList.drop 5) :
    compute_directory_sizes fs s3 path = .error valueErrorMsg := by
  have hd := startsWithS3_eq path h1
  unfold compute_directory_sizes compute_directory_sizes_s3 s3Parse
  rw [if_pos h1]
  have hstep : replaceS3 ('s' :: '3' :: ':' :: '/' :: '/' :: path.toList.drop 5)
      = replaceS3 (path.toList.drop 5) := rfl
  have hrepl : replaceS3 path.toList = path.toList.drop 5 := by
    rw [hd, hstep, hasS3_false_replaceS3 _ (no_slash_hasS3 _ h2)]
    rfl
  rw [hrepl, no_slash_splitFirstSlash _ h2]
  rfl

/-- Claim C5 witness: `s3://onlybucket` fails with the `ValueError`
whatever the store holds. -/
theorem C5_malformed_witness :
    compute_directory_sizes fsEmpty s3Empty "s3://onlybucket" = .error valueErrorMsg :=
  C5_malformed fsEmpty s3Empty "s3://onlybucket" (by decide) (by decide)

/-- Claim C6 counterexample: at `s3://bucket/s3://key` the code removes
the inner `s3://` occurrence too, parsing the key-prefix as `key`, while
stripping only the leading prefix, as the claim states, parses it as
`s3://key`. -/
theorem C6_counterexample :
    s3Parse "s3://bucket/s3://key" = some ("bucket".toList, "key".toList) ∧
    specStripLeadingParse "s3://bucket/s3://key"
      = some ("bucket".toList, "s3://key".toList) ∧
    s3Parse "s3://bucket/s3://key" ≠ specStripLeadingParse "s3://bucket/s3://key" := by
  decide

/-- Claim C6 (amended): the parser removes every left-to-right occurrence
of `s3://` from the location, not only the leading one; whenever the
remainder after the leading scheme contains no further `s3://`, this
coincides with stripping only the leading prefix and splitting the
remainder on its first `/`. -/
theorem C6_amended_parse (path : String)
    (h1 : startsWithS3 path = true)
    (h2 : hasS3 (path.toList.drop 5) = false) :
    s3Parse path = specStripLeadingParse path := by
  have hd := startsWithS3_eq path h1
  unfold s3Parse specStripLeadingParse
  have hstep : replaceS3 ('s' :: '3' :: ':' :: '/' :: '/' :: path.toList.drop 5)
      = replaceS3 (path.toList.drop 5) := rfl
  have hrepl : replaceS3 path.toList = path.toList.drop 5 := by
    rw [hd, hstep, hasS3_false_replaceS3 _ h2]
    rfl
  rw [hrepl]

/-- Claim C6 (amended) witness: on `s3://bucket/key` the code's parse and
the strip-only-the-leading parse agree. -/
theorem C6_amended_parse_witness :
    s3Parse "s3://bucket/key" = specStripLeadingParse "s3://bucket/key" :=
  C6_amended_parse "s3://bucket/key" (by decide) (by decide)

/-- Claim C7: pagination is transparent — aggregating the pages equals
aggregating their concatenation as one page; two stores serving the same
objects as many pages or as a single concatenated page give the remote
traversal the same result; and the spec's two-page example (sizes 100 and
200, then 50) totals 350 bytes over 3 files. -/
theorem C7_pagination :
    (∀ pages : List (List Nat), s3Aggregate pages = s3Aggregate [pages.flatten]) ∧
    (∀ s3a s3b : S3State,
      (∀ b keyPre, s3b.pages b keyPre = [(s3a.pages b keyPre).flatten]) →
      ∀ path, compute_directory_sizes_s3 s3b path = compute_directory_sizes_s3 s3a path) ∧
    s3Aggregate [[100, 200], [50]] = { total_size := 350, total_number_of_files := 3 } := by
  refine ⟨?_, ?_, by decide⟩
  · intro pages
    rw [s3Aggregate_eq, s3Aggregate_eq]
    simp
  · intro s3a s3b h path
    unfold compute_directory_sizes_s3
    cases hp : s3Parse path with
    | none => rfl
    | some bp =>
      obtain ⟨b, keyPre⟩ := bp
      change Except.ok (s3Aggregate (s3b.pages b keyPre))
        = Except.ok (s3Aggregate (s3a.pages b keyPre))
      rw [h b keyPre, s3Aggregate_eq, s3Aggregate_eq]
      simp

/-- Claim C7 witness: the two-page listing and its one-page concatenation
give the remote traversal the same result. -/
theorem C7_pagination_witness :
    compute_directory_sizes_s3 s3OnePage "s3://b/p"
      = compute_directory_sizes_s3 s3TwoPages "s3://b/p" :=
  C7_pagination.2.1 s3TwoPages s3OnePage (fun _ _ => rfl) "s3://b/p"

/-- Claim C8: determinism — two invocations seeing pointwise-identical
filesystem facts and listing pages return identical results; the routine
is a pure function of its input and the external state, with no hidden
state across invocations. -/
theorem C8_deterministic (fs1 fs2 : FileSystem) (s3a s3b : S3State) (path : String)
    (hi : ∀ p, fs1.isdir p = fs2.isdir p)
    (hw : ∀ p, fs1.walk p = fs2.walk p)
    (hg : ∀ p, fs1.getsize p = fs2.getsize p)
    (hp : ∀ b keyPre, s3a.pages b keyPre = s3b.pages b keyPre) :
    compute_directory_sizes fs1 s3a path = compute_directory_sizes fs2 s3b path := by
  have h1 : fs1 = fs2 := by
    cases fs1
    cases fs2
    simp only [FileSystem.mk.injEq]
    exact ⟨funext hi, funext hw, funext hg⟩
  have h2 : s3a = s3b := by
    cases s3a
    cases s3b
    simp only [S3State.mk.injEq]
    exact funext fun b => funext fun keyPre => hp b keyPre
  rw [h1, h2]

/-- Claim C8 witness: two identical invocations agree. -/
theorem C8_deterministic_witness :
    compute_directory_sizes fsEmpty s3Empty "d" = compute_directory_sizes fsEmpty s3Empty "d" :=
  C8_deterministic fsEmpty fsEmpty s3Empty s3Empty "d"
    (fun _ => rfl) (fun _ => rfl) (fun _ => rfl) (fun _ _ => rfl)

/-- Claim C9: the wrapper returns exactly the selected backend's value —
the emitted log lines and the byte formatter (whichever formatter is
used) leave the returned result untouched. -/
theorem C9_wrapper_frame (fmt : Nat → String) (fs : FileSystem) (s3 : S3State) (path : String) :
    (compute_directory_sizes_logged fmt fs s3 path).1 = compute_directory_sizes fs s3 path := by
  unfold compute_directory_sizes_logged compute_directory_sizes
  split <;> rename_i heq <;> rw [heq]

/-- Claim C10: an existing local directory containing no files at all
yields the zero report, not the absent result. -/
theorem C10_empty_local (fs : FileSystem) (path : String)
    (h1 : fs.isdir path = true)
    (h2 : ∀ t ∈ fs.walk path, t.2.2 = ([] : List String)) :
    compute_directory_sizes_local fs path
      = some { total_size := 0, total_number_of_files := 0 } := by
  rw [compute_local_eq, if_pos h1]
  unfold localFiles
  rw [filesOfWalk_eq_nil _ h2]
  rfl

/-- Claim C10 witness: directory `d` with only an empty subdirectory
yields the zero report. -/
theorem C10_empty_local_witness :
    compute_directory_sizes_local fsEmptyDir "d"
      = some { total_size := 0, total_number_of_files := 0 } :=
  C10_empty_local fsEmptyDir "d" (by decide) (by decide)
